import Mathlib

/-!
Verification development for the F1 strategy-simulator repository.

The data model and the frontend validation / race-data loading logic are
embedded from the frontend sources (`StintPlanner.tsx` / `StrategyView`,
`ResultsSummary.tsx`, `types/index.ts`).  The backend computation engine
(degradation fitting, pit statistics, actual-strategy extraction, the
lap-by-lap simulator, comparison and recommendation) is not part of the
source tree, so those definitions are modelled from the specification
text, as indicated on each definition.  Floating-point seconds are
modelled as rational numbers.
-/

namespace F1Strategy

/-- One per-lap record from the ingest collaborator (spec section 3 and 6:
LapRecord with driver id, lap number, lap time seconds, compound, tyre age,
stint id, pit flag, optional explicit pit duration; an accuracy flag marks
outlier laps excluded from clean-lap computations). -/
structure LapRecord where
  driver : String
  lap_number : Nat
  lap_time : ℚ
  compound : String
  tyre_age : Nat
  stint_id : Nat
  is_pit_lap : Bool
  is_accurate : Bool
  pit_duration : Option ℚ := none
deriving DecidableEq

/-- Per-compound linear degradation model, `types/index.ts` DegradationModel. -/
structure DegradationModel where
  base_time : ℚ
  deg_rate : ℚ
deriving DecidableEq

/-- Per-compound degradation curve, `types/index.ts` CompoundDegradation.
The source exposes a standard deviation per bucket; its square root is not
rational, so the embedding records the variance (`var_lap_time`) instead;
no claim concerns this field. -/
structure CompoundDegradation where
  tyre_life : List Nat
  avg_lap_time : List ℚ
  var_lap_time : List ℚ
  count : List Nat
deriving DecidableEq

/-- Race-wide fuel-burn trend, `types/index.ts` FuelEffect. -/
structure FuelEffect where
  laps : List Nat
  fuel_penalty_seconds : List ℚ
  fuel_effect_per_lap : ℚ
  total_fuel_effect : ℚ
  description : String
deriving DecidableEq

/-- Output of the degradation endpoint, `types/index.ts` DegradationResponse
(weather summary omitted: a descriptive flag outside every claim). -/
structure DegradationResponse where
  compounds : List (String × CompoundDegradation)
  models : List (String × Option DegradationModel)
  fuel_effect : FuelEffect
  total_laps : Nat
deriving DecidableEq

/-- Pit-loss statistics, `types/index.ts` PitStats. -/
structure PitStats where
  avg_pit_time : ℚ
  min_pit_time : ℚ
  max_pit_time : ℚ
  num_stops : Nat
deriving DecidableEq

/-- One reconstructed stint of the actual strategy, `types/index.ts` StintInfo. -/
structure StintInfo where
  stint : Nat
  compound : String
  start_lap : Nat
  end_lap : Nat
  laps : Nat
deriving DecidableEq

/-- One actual lap time entry, `types/index.ts` LapTime. -/
structure LapTimeEntry where
  lap : Nat
  time_sec : ℚ
  compound : String
  tyre_life : Nat
deriving DecidableEq

/-- A pit-lap boundary with from/to compound, `types/index.ts` PitLap. -/
structure PitLap where
  lap : Nat
  from_compound : String
  to_compound : String
deriving DecidableEq

/-- A driver's reconstructed strategy, `types/index.ts` ActualStrategy. -/
structure ActualStrategy where
  stints : List StintInfo
  lap_times : List LapTimeEntry
  total_time : ℚ
  pit_laps : List PitLap
  total_laps : Nat
deriving DecidableEq

/-- One simulated lap, `types/index.ts` SimulatedLap. -/
structure SimLap where
  lap : Nat
  time_sec : ℚ
  compound : String
  tyre_life : Nat
  is_pit_lap : Bool
deriving DecidableEq

/-- One cumulative-gap point, `types/index.ts` CumulativeGapPoint. -/
structure CumulativeGapPoint where
  lap : Nat
  gap : ℚ
deriving DecidableEq

/-- Per-stint comparison record, `types/index.ts` StintAnalysis. -/
structure StintAnalysis where
  stint : Nat
  compound : String
  laps : Nat
  delta : ℚ
  explanation : String
deriving DecidableEq

/-- One stint of a plan: compound plus lap count (`postSimulate` payload
entries and `SuggestedStrategy.stints` in `types/index.ts`). -/
structure Stint where
  compound : String
  laps : Nat
deriving DecidableEq

/-- A recommended alternative plan, `types/index.ts` SuggestedStrategy. -/
structure SuggestedStrategy where
  label : String
  stints : List Stint
  total_time : ℚ
  delta_vs_actual : ℚ
deriving DecidableEq

/-- Simulation response, `types/index.ts` SimulateResponse. -/
structure SimulateResponse where
  simulated_laps : List SimLap
  user_total_time : ℚ
  actual : Option ActualStrategy
  cumulative_gap : List CumulativeGapPoint
  stint_analysis : List StintAnalysis
  suggested_strategies : List SuggestedStrategy
deriving DecidableEq

/-- A stint row of the planner UI, `types/index.ts` StintInput: the lap
count is a number or the empty string; `none` models the empty string. -/
structure StintInput where
  compound : String
  laps : Option Nat
deriving DecidableEq

/-- `Number(s.laps) || 0` from `StrategyView.handleSimulate`: an empty
lap field counts as zero laps. -/
def lapsNumOf (s : StintInput) : Nat := s.laps.getD 0

/-- `totalPlanned` from `StrategyView.handleSimulate`: sum of the entered
lap counts with empty fields counting as zero. -/
def plannedTotal (stints : List StintInput) : Nat :=
  (stints.map lapsNumOf).sum

/-- `new Set(state.stints.map((s) => s.compound)).size` from
`StrategyView.handleSimulate`: the number of distinct compounds used. -/
def distinctCompounds (stints : List StintInput) : Nat :=
  ((stints.map (·.compound)).dedup).length

/-- The validation performed by `StrategyView.handleSimulate` before the
simulation request is posted: lap counts must sum to the race distance and
at least two distinct compounds must be used; on success the stint rows are
converted to the plan payload `{compound, laps: Number(s.laps)}`. -/
def handleSimulate (stints : List StintInput) (totalLaps : Nat) :
    Except String (List Stint) :=
  if plannedTotal stints ≠ totalLaps then
    Except.error ("Total laps (" ++ toString (plannedTotal stints) ++
      ") must equal race distance (" ++ toString totalLaps ++ ").")
  else if distinctCompounds stints < 2 then
    Except.error "Must use at least 2 different tire compounds."
  else
    Except.ok (stints.map (fun s => ⟨s.compound, lapsNumOf s⟩))

/-- Whether a validation outcome reached the simulation request. -/
def isAccepted (r : Except String (List Stint)) : Bool :=
  match r with
  | Except.ok _ => true
  | Except.error _ => false

/-- The race data assembled by `StrategyView.handleLoadRaceData`: the
actual-strategy fetch result (`null` on fetch failure, via
`.catch(() => null)`) and `totalLaps = actual?.total_laps ?? 57`. -/
structure RaceData where
  degradation : DegradationResponse
  pitStats : PitStats
  actual : Option ActualStrategy
  totalLaps : Nat
deriving DecidableEq

/-- `StrategyView.handleLoadRaceData` assembly of the race data record. -/
def buildRaceData (deg : DegradationResponse) (pit : PitStats)
    (actualFetch : Option ActualStrategy) : RaceData :=
  ⟨deg, pit, actualFetch, (actualFetch.map (·.total_laps)).getD 57⟩

/-- `ResultsSummary`: `actualTotal = actual?.total_time ?? 0`. -/
def actualTotalOf (a : Option ActualStrategy) : ℚ :=
  (a.map (·.total_time)).getD 0

/-- `ResultsSummary`: `diff = actualTotal > 0 ? user_total_time - actualTotal : 0`. -/
def totalTimeDiff (userTotal : ℚ) (a : Option ActualStrategy) : ℚ :=
  if 0 < actualTotalOf a then userTotal - actualTotalOf a else 0

/-- `ResultsSummary` shows a total-time comparison only when
`actualTotal > 0`; otherwise it renders "No comparison available". -/
def comparisonAvailable (a : Option ActualStrategy) : Bool :=
  decide (0 < actualTotalOf a)

/-- The `userStops` loop of `ResultsSummary`: boundary `i` sits at the
cumulative lap count of stints `0..i`, from the compound of stint `i`
to the compound of stint `i+1`. -/
def toBoundaries : List Stint → Nat → List PitLap
  | [], _ => []
  | [_], _ => []
  | s :: s' :: rest, start =>
      ⟨start + s.laps, s.compound, s'.compound⟩ ::
        toBoundaries (s' :: rest) (start + s.laps)

/-- Modelled from the spec: the inverse conversion of the stint/boundary
round-trip property ("converting a stint list to pit-lap boundaries and
back yields the original list"); the backward direction is not part of the
frontend sources.  The first stint runs up to the first boundary from its
`from` compound; each later boundary closes a stint on its own `from`
compound; the final stint runs from the last boundary to the race total on
that boundary's `to` compound. -/
def fromBoundaries (total : Nat) : Nat → List PitLap → List Stint
  | _, [] => []
  | start, [b] =>
      [⟨b.from_compound, b.lap - start⟩, ⟨b.to_compound, total - b.lap⟩]
  | start, b :: b' :: rest =>
      ⟨b.from_compound, b.lap - start⟩ :: fromBoundaries total b.lap (b' :: rest)


/-- Modelled from the spec (section 4.1): clean laps exclude pit laps and
inaccurate/outlier laps. -/
def cleanLaps (laps : List LapRecord) : List LapRecord :=
  laps.filter (fun r => !r.is_pit_lap && r.is_accurate)

/-- The compounds appearing among the clean laps, in order of first
appearance. -/
def compoundsOf (laps : List LapRecord) : List String :=
  ((cleanLaps laps).map (·.compound)).dedup

/-- Clean laps of one compound. -/
def compoundClean (laps : List LapRecord) (c : String) : List LapRecord :=
  (cleanLaps laps).filter (fun r => r.compound == c)

/-- Modelled from the spec (section 4.1): the distinct integer tyre-age
buckets of a compound's clean laps. -/
def bucketAges (laps : List LapRecord) (c : String) : List Nat :=
  ((compoundClean laps c).map (·.tyre_age)).dedup

/-- The clean lap times of one compound falling in one tyre-age bucket. -/
def bucketTimes (laps : List LapRecord) (c : String) (a : Nat) : List ℚ :=
  ((compoundClean laps c).filter (fun r => r.tyre_age == a)).map (·.lap_time)

/-- Mean lap time of a tyre-age bucket. -/
def bucketMean (laps : List LapRecord) (c : String) (a : Nat) : ℚ :=
  let ts := bucketTimes laps c a
  ts.sum / (ts.length : ℚ)

/-- Variance of a tyre-age bucket (stands in for the reported standard
deviation, whose square root is irrational; no claim concerns it). -/
def bucketVar (laps : List LapRecord) (c : String) (a : Nat) : ℚ :=
  let ts := bucketTimes laps c a
  let m := ts.sum / (ts.length : ℚ)
  ((ts.map (fun t => (t - m) ^ 2)).sum) / (ts.length : ℚ)

/-- Modelled from the spec (section 9): closed-form ordinary least squares
over a point list, returning (intercept, slope). -/
def olsFit (pts : List (ℚ × ℚ)) : ℚ × ℚ :=
  let n : ℚ := (pts.length : ℚ)
  let sx := (pts.map Prod.fst).sum
  let sy := (pts.map Prod.snd).sum
  let sxy := (pts.map (fun p => p.1 * p.2)).sum
  let sxx := (pts.map (fun p => p.1 * p.1)).sum
  let slope := (n * sxy - sx * sy) / (n * sxx - sx * sx)
  ((sy - slope * sx) / n, slope)

/-- Modelled from the spec (section 4.1): fit
`lap_time = base_time + deg_rate * tyre_age` by ordinary least squares over
the bucket means, requiring at least two distinct tyre-age buckets;
otherwise the compound's model is null.  The slope is not clamped. -/
def fitCompound (laps : List LapRecord) (c : String) : Option DegradationModel :=
  if (bucketAges laps c).length < 2 then none
  else
    let pts := (bucketAges laps c).map (fun (a : Nat) => ((a : ℚ), bucketMean laps c a))
    let fit := olsFit pts
    some ⟨fit.1, fit.2⟩

/-- The per-compound degradation curve arrays. -/
def curveOf (laps : List LapRecord) (c : String) : CompoundDegradation :=
  { tyre_life := bucketAges laps c
    avg_lap_time := (bucketAges laps c).map (bucketMean laps c)
    var_lap_time := (bucketAges laps c).map (bucketVar laps c)
    count := (bucketAges laps c).map (fun a => (bucketTimes laps c a).length) }

/-- The race length seen in the lap data. -/
def totalLapsOf (laps : List LapRecord) : Nat :=
  (laps.map (·.lap_number)).foldr max 0

/-- Modelled from the spec (section 4.2): race-wide linear trend of
lap time versus absolute lap number across all clean laps. -/
def fuelEffectOf (laps : List LapRecord) (total : Nat) : FuelEffect :=
  let pts := (cleanLaps laps).map (fun r => ((r.lap_number : ℚ), r.lap_time))
  let fit := olsFit pts
  { laps := (List.range total).map (· + 1)
    fuel_penalty_seconds := (List.range total).map (fun l => fit.2 * (l : ℚ))
    fuel_effect_per_lap := fit.2
    total_fuel_effect := fit.2 * ((total : ℚ) - 1)
    description := "Linear fuel burn estimate" }

/-- Modelled from the spec (section 6): `compute_degradation` returns the
per-compound curves and models, the fuel effect and the race length; each
compound's model is fitted independently and is null on insufficient data
while the sibling computations still return their data. -/
def computeDegradation (laps : List LapRecord) : DegradationResponse :=
  { compounds := (compoundsOf laps).map (fun c => (c, curveOf laps c))
    models := (compoundsOf laps).map (fun c => (c, fitCompound laps c))
    fuel_effect := fuelEffectOf laps (totalLapsOf laps)
    total_laps := totalLapsOf laps }

/-- A clean (non-pit, accurate) lap record for concrete examples. -/
def cleanRec (d : String) (n : Nat) (t : ℚ) (c : String) (a : Nat) : LapRecord :=
  ⟨d, n, t, c, a, 1, false, true, none⟩

/-- Concrete lap data: two SOFT tyre-age buckets with lap times improving
as the track rubbers in, and a single HARD bucket. -/
def degExample : List LapRecord :=
  [cleanRec "VER" 1 100 "SOFT" 1,
   cleanRec "VER" 2 99 "SOFT" 2,
   cleanRec "VER" 3 95 "HARD" 1]

/-- Modelled from the spec (section 4.4): partition a driver's laps into
contiguous stints at every compound change, recording start/end lap per
stint, the lap-time series, the cumulative total time, and the pit-lap
boundaries with from/to compound; an unrecognized driver id fails with
the UnknownDriverError. -/
def extract_actual_strategy (laps : List LapRecord) (driver : String) :
    Except String ActualStrategy :=
  let dl := laps.filter (fun r => r.driver == driver)
  match dl with
  | [] => Except.error "UnknownDriverError"
  | _ :: _ =>
    let groups := dl.splitBy (fun a b => a.compound == b.compound)
    let stints := groups.enum.map (fun g =>
      { stint := g.1 + 1
        compound := ((g.2.head?).map (·.compound)).getD ""
        start_lap := ((g.2.head?).map (·.lap_number)).getD 0
        end_lap := ((g.2.getLast?).map (·.lap_number)).getD 0
        laps := g.2.length })
    let pit_laps := (groups.zip groups.tail).map (fun g =>
      { lap := ((g.1.getLast?).map (·.lap_number)).getD 0
        from_compound := ((g.1.getLast?).map (·.compound)).getD ""
        to_compound := ((g.2.head?).map (·.compound)).getD "" })
    Except.ok
      { stints := stints
        lap_times := dl.map (fun r => ⟨r.lap_number, r.lap_time, r.compound, r.tyre_age⟩)
        total_time := (dl.map (·.lap_time)).sum
        pit_laps := pit_laps
        total_laps := dl.length }

/-- The model map passed to the simulator: one fitted model per compound. -/
abbrev Models := List (String × DegradationModel)

/-- Model lookup by compound. -/
def lookupModel (m : Models) (c : String) : Option DegradationModel :=
  (m.find? (fun q => q.1 == c)).map Prod.snd

/-- Modelled from the spec (section 4.5): the substitute for a compound
without a fitted model, averaged over the compounds that do have models
(the sample counts are not part of the model map handed to `simulate`, so
the average here is unweighted). -/
def fallbackModel (m : Models) : DegradationModel :=
  if m.length = 0 then ⟨0, 0⟩
  else ⟨(m.map (fun q => q.2.base_time)).sum / (m.length : ℚ),
        (m.map (fun q => q.2.deg_rate)).sum / (m.length : ℚ)⟩

/-- Modelled from the spec (section 4.5 step 2): the predicted lap time
`base_time + deg_rate * tyre_age`, floored at zero. -/
def predict (m : Models) (c : String) (age : Nat) : ℚ :=
  let dm := (lookupModel m c).getD (fallbackModel m)
  max 0 (dm.base_time + dm.deg_rate * (age : ℚ))

/-- Modelled from the spec (section 4.5): the emitted laps of one stint of
`n` laps starting after `start` laps, with tyre ages 1..n; when the stint
ends at a plan boundary (`isBoundary`), the last lap carries the pit-loss
addition and the `is_pit_lap` mark. -/
def stintLapsList (m : Models) (p : ℚ) (c : String) (n start : Nat)
    (isBoundary : Bool) : List SimLap :=
  (List.range n).map (fun i =>
    let base := predict m c (i + 1)
    let pitHere := isBoundary && (i + 1 == n)
    ⟨start + i + 1, if pitHere then base + p else base, c, i + 1, pitHere⟩)

/-- Modelled from the spec (section 4.5): lap-by-lap simulation over the
stint plan; every stint except the last ends at a plan boundary. -/
def simulateLaps (m : Models) (p : ℚ) : List Stint → Nat → List SimLap
  | [], _ => []
  | [s], start => stintLapsList m p s.compound s.laps start false
  | s :: s' :: rest, start =>
      stintLapsList m p s.compound s.laps start true ++
        simulateLaps m p (s' :: rest) (start + s.laps)

/-- The pit-free predicted time of a stint of `n` laps, ages 1..n. -/
def stintTime (m : Models) (c : String) : Nat → ℚ
  | 0 => 0
  | n + 1 => stintTime m c n + predict m c (n + 1)

/-- The total predicted time of a plan: stint times plus one pit loss per
boundary (a stint of zero laps emits no laps and hence no pit loss). -/
def planTotal (m : Models) (p : ℚ) : List Stint → ℚ
  | [] => 0
  | [s] => stintTime m s.compound s.laps
  | s :: s' :: rest =>
      stintTime m s.compound s.laps + (if s.laps = 0 then 0 else p) +
        planTotal m p (s' :: rest)

/-- The degradation time saved by resetting tyre age when a stint of `L`
laps is split into stints of `k` and `L - k` laps. -/
def degSaved (m : Models) (c : String) (L k : Nat) : ℚ :=
  stintTime m c L - stintTime m c k - stintTime m c (L - k)

/-- Modelled from the spec (section 4.6): the running cumulative gap, one
point per aligned lap, carrying the lap number and the running total of
(simulated - actual). -/
def cumGapAux : Nat → ℚ → List ℚ → List CumulativeGapPoint
  | _, _, [] => []
  | lapNum, acc, d :: ds => ⟨lapNum + 1, acc + d⟩ :: cumGapAux (lapNum + 1) (acc + d) ds

/-- Modelled from the spec (section 4.6): align the simulated and actual
lap-time series by lap number (`zipWith` truncates at the shorter series)
and accumulate the per-lap difference. -/
def cumulativeGap (sim act : List ℚ) : List CumulativeGapPoint :=
  cumGapAux 0 0 (List.zipWith (fun s a => s - a) sim act)

/-- Modelled from the spec (section 4.6): the fixed explanation templates,
keyed by the sign and magnitude of the stint delta. -/
def explanationFor (d : ℚ) : String :=
  if d < -5 then "Fresher tires gained significant time in this stint"
  else if d < 0 then "Fresher tires gained time in this stint"
  else if d ≤ 5 then "Roughly even with the actual stint"
  else "Extra pit loss and tire wear cost time in this stint"

/-- The (exclusive-start, inclusive-end, compound) lap ranges of a plan. -/
def stintRangesOf : List Stint → Nat → List (Nat × Nat × String)
  | [], _ => []
  | s :: rest, acc => (acc, acc + s.laps, s.compound) :: stintRangesOf rest (acc + s.laps)

/-- Sum of the times of the (lap, time) pairs with lap in (lo, hi]. -/
def sumWindow (ps : List (Nat × ℚ)) (lo hi : Nat) : ℚ :=
  ((ps.filter (fun q => decide (lo < q.1 ∧ q.1 ≤ hi))).map (·.2)).sum

/-- Modelled from the spec (section 4.6): per-stint delta over the window
overlapping the actual series, with a deterministic template explanation. -/
def stintAnalysisOf (simLaps : List SimLap) (a : ActualStrategy)
    (plan : List Stint) : List StintAnalysis :=
  let simPairs := simLaps.map (fun l => (l.lap, l.time_sec))
  let actPairs := a.lap_times.map (fun l => (l.lap, l.time_sec))
  let maxLap := min simLaps.length a.lap_times.length
  (stintRangesOf plan 0).enum.map (fun pr =>
    let lo := pr.2.1
    let hi := pr.2.2.1
    let c := pr.2.2.2
    let d := sumWindow simPairs lo (min hi maxLap) - sumWindow actPairs lo (min hi maxLap)
    { stint := pr.1 + 1, compound := c, laps := hi - lo, delta := d,
      explanation := explanationFor d })

/-- The configured minimum stint length used by the recommender. -/
def minStintLen : Nat := 3

/-- The coarse lap grid (every fifth lap) for candidate pit boundaries. -/
def gridOf (total : Nat) : List Nat :=
  (List.range (total + 1)).filter (fun b => decide (b % 5 = 0 ∧ 0 < b ∧ b < total))

/-- All compound sequences of a given length over the available compounds. -/
def compoundSeqs (cs : List String) : Nat → List (List String)
  | 0 => [[]]
  | n + 1 => cs.flatMap (fun c => (compoundSeqs cs n).map (c :: ·))

/-- Whether a candidate plan satisfies the recommender filter: every stint
at least the configured minimum length and at least two distinct compounds. -/
def planOk (plan : List Stint) : Bool :=
  plan.all (fun s => decide (minStintLen ≤ s.laps)) &&
    decide (2 ≤ ((plan.map (·.compound)).dedup).length)

/-- Modelled from the spec (section 4.7): candidate plans over 1..4 pit
stops with boundaries on the coarse grid, filtered by the stint-length and
compound rules. -/
def candidatePlans (cs : List String) (total : Nat) : List (List Stint) :=
  ((List.range 4).flatMap (fun i =>
    let stops := i + 1
    (List.sublistsLen stops (gridOf total)).flatMap (fun bs =>
      let lens := List.zipWith (fun hi lo => hi - lo) (bs ++ [total]) (0 :: bs)
      (compoundSeqs cs (stops + 1)).map (fun seq =>
        List.zipWith (fun c n => (⟨c, n⟩ : Stint)) seq lens)))).filter planOk

/-- Insertion into a list sorted ascending by predicted total time. -/
def insertRanked (x : List Stint × ℚ) : List (List Stint × ℚ) → List (List Stint × ℚ)
  | [] => [x]
  | y :: ys => if x.2 ≤ y.2 then x :: y :: ys else y :: insertRanked x ys

/-- Insertion sort ascending by predicted total time. -/
def rankByTime (l : List (List Stint × ℚ)) : List (List Stint × ℚ) :=
  l.foldr insertRanked []

/-- De-duplication by compound sequence, keeping the first (fastest) plan
of each shape. -/
def dedupByShape : List (List Stint × ℚ) → List (List String) → List (List Stint × ℚ)
  | [], _ => []
  | q :: qs, seen =>
      let shape := q.1.map (·.compound)
      if seen.contains shape then dedupByShape qs seen
      else q :: dedupByShape qs (shape :: seen)

/-- Modelled from the spec (section 4.7): rank the candidates ascending by
simulated total time, de-duplicate by compound sequence and return the top
three shapes with their delta against the actual total. -/
def recommend (m : Models) (pit : PitStats) (a : ActualStrategy) (total : Nat) :
    List SuggestedStrategy :=
  let scored := (candidatePlans (m.map Prod.fst) total).map
    (fun pl => (pl, ((simulateLaps m pit.avg_pit_time pl 0).map (·.time_sec)).sum))
  let ranked := dedupByShape (rankByTime scored) []
  (ranked.take 3).map (fun q =>
    { label := toString (q.1.length - 1) ++ "-stop"
      stints := q.1
      total_time := q.2
      delta_vs_actual := q.2 - a.total_time })

/-- Modelled from the spec (sections 4.5-4.7 and 6): `simulate` runs the
lap-by-lap simulation and, when an actual strategy is present, the
comparison and the recommender; with `actual = null` the comparison fields
that depend on it are omitted. -/
def simulate (m : Models) (pit : PitStats) (actual : Option ActualStrategy)
    (plan : List Stint) : SimulateResponse :=
  let laps := simulateLaps m pit.avg_pit_time plan 0
  { simulated_laps := laps
    user_total_time := (laps.map (·.time_sec)).sum
    actual := actual
    cumulative_gap :=
      match actual with
      | none => []
      | some a => cumulativeGap (laps.map (·.time_sec)) (a.lap_times.map (·.time_sec))
    stint_analysis :=
      match actual with
      | none => []
      | some a => stintAnalysisOf laps a plan
    suggested_strategies :=
      match actual with
      | none => []
      | some a => recommend m pit a ((plan.map (·.laps)).sum) }

/-- The models of the concrete spec scenario: MEDIUM with base 92 and rate
0.04, HARD with base 93 and rate 0.02. -/
def scenarioModels : Models := [("MEDIUM", ⟨92, 1/25⟩), ("HARD", ⟨93, 1/50⟩)]

/-- The pit statistics of the concrete spec scenario: 22 second average. -/
def scenarioPit : PitStats := ⟨22, 20, 26, 40⟩

/-- The plan of the concrete spec scenario: 28 MEDIUM laps then 29 HARD. -/
def scenarioPlan : List Stint := [⟨"MEDIUM", 28⟩, ⟨"HARD", 29⟩]

/-- An actual strategy with one recorded lap, used to vary only the
`actual` argument of `simulate`. -/
def divergingActual : ActualStrategy :=
  ⟨[], [⟨1, 100, "SOFT", 1⟩], 100, [], 1⟩

/-- A one-record lap list belonging to driver VER. -/
def soloLap : List LapRecord := [cleanRec "VER" 1 90 "SOFT" 1]

end F1Strategy

namespace F1Strategy

theorem toBoundaries_cons₂ (s s' : Stint) (rest : List Stint) (start : Nat) :
    toBoundaries (s :: s' :: rest) start =
      ⟨start + s.laps, s.compound, s'.compound⟩ ::
        toBoundaries (s' :: rest) (start + s.laps) := rfl

theorem fromBoundaries_cons₂ (total start : Nat) (b b' : PitLap) (rest : List PitLap) :
    fromBoundaries total start (b :: b' :: rest) =
      ⟨b.from_compound, b.lap - start⟩ :: fromBoundaries total b.lap (b' :: rest) := rfl

theorem roundTrip_aux :
    ∀ (stints : List Stint) (start total : Nat), 2 ≤ stints.length →
      start + (stints.map (·.laps)).sum = total →
      fromBoundaries total start (toBoundaries stints start) = stints := by
  intro stints
  induction stints with
  | nil => intro start total h2 _; simp at h2
  | cons s rest ih =>
    intro start total h2 hsum
    cases rest with
    | nil => simp at h2
    | cons s' rest' =>
      cases rest' with
      | nil =>
        simp only [toBoundaries, fromBoundaries]
        simp only [List.map_cons, List.map_nil, List.sum_cons, List.sum_nil] at hsum
        have h1 : start + s.laps - start = s.laps := by omega
        have hl : total - (start + s.laps) = s'.laps := by omega
        simp [h1, hl]
      | cons r rs =>
        rw [toBoundaries_cons₂, toBoundaries_cons₂, fromBoundaries_cons₂,
          ← toBoundaries_cons₂]
        have h1 : start + s.laps - start = s.laps := by omega
        have htl : (start + s.laps) + ((s' :: r :: rs).map (·.laps)).sum = total := by
          simp only [List.map_cons, List.sum_cons] at hsum ⊢
          omega
        rw [ih (start + s.laps) total (by simp) htl, h1]

theorem isAccepted_error (m : String) : isAccepted (Except.error m) = false := rfl

theorem isAccepted_ok (l : List Stint) : isAccepted (Except.ok l) = true := rfl

/-- Shared helper: acceptance of `handleSimulate` is equivalent to the two
checked conditions. -/
theorem handleSimulate_accepted_iff (stints : List StintInput) (totalLaps : Nat) :
    isAccepted (handleSimulate stints totalLaps) = true ↔
      (plannedTotal stints = totalLaps ∧ 2 ≤ distinctCompounds stints) := by
  unfold handleSimulate
  by_cases h1 : plannedTotal stints ≠ totalLaps
  · rw [if_pos h1, isAccepted_error]
    simp only [Bool.false_eq_true, false_iff]
    intro hc
    exact h1 hc.1
  · rw [if_neg h1]
    by_cases h2 : distinctCompounds stints < 2
    · rw [if_pos h2, isAccepted_error]
      simp only [Bool.false_eq_true, false_iff]
      intro hc
      omega
    · rw [if_neg h2, isAccepted_ok]
      constructor
      · intro _
        exact ⟨not_not.mp h1, by omega⟩
      · intro _
        rfl

/-- C2: a stint plan submitted for simulation is rejected before the
simulation request exactly when its lap counts do not sum to the race
length or it uses fewer than two distinct compounds; otherwise validation
passes and the request proceeds. -/
theorem stint_plan_validation (stints : List StintInput) (totalLaps : Nat) :
    isAccepted (handleSimulate stints totalLaps) = true ↔
      (plannedTotal stints = totalLaps ∧ 2 ≤ distinctCompounds stints) :=
  handleSimulate_accepted_iff stints totalLaps

/-- C6 counterexample: a plan whose lap counts sum to the race length and
which uses two distinct compounds is accepted even though its second stint
has zero laps, violating any positive minimum stint length; no
minimum-stint-length check exists in `handleSimulate`. -/
theorem accepted_plan_zero_stint :
    isAccepted (handleSimulate [⟨"MEDIUM", some 57⟩, ⟨"HARD", some 0⟩] 57) = true
    ∧ handleSimulate [⟨"MEDIUM", some 57⟩, ⟨"HARD", some 0⟩] 57 =
        Except.ok [⟨"MEDIUM", 57⟩, ⟨"HARD", 0⟩]
    ∧ ¬ (∀ s ∈ [(⟨"MEDIUM", 57⟩ : Stint), ⟨"HARD", 0⟩], 1 ≤ s.laps) := by
  refine ⟨rfl, rfl, ?_⟩
  decide

/-- C6 amended: every stint plan accepted for simulation satisfies the two
checked StintPlan invariants — its lap counts sum to the race length and it
uses at least two distinct compounds; the minimum-stint-length invariant is
not enforced at submission. -/
theorem accepted_plan_invariants (stints : List StintInput) (totalLaps : Nat)
    (plan : List Stint) (h : handleSimulate stints totalLaps = Except.ok plan) :
    (plan.map (·.laps)).sum = totalLaps ∧
      2 ≤ ((plan.map (·.compound)).dedup).length := by
  unfold handleSimulate at h
  by_cases h1 : plannedTotal stints ≠ totalLaps
  · rw [if_pos h1] at h; cases h
  · rw [if_neg h1] at h
    by_cases h2 : distinctCompounds stints < 2
    · rw [if_pos h2] at h; cases h
    · rw [if_neg h2] at h
      have hp : plan = stints.map (fun s => (⟨s.compound, lapsNumOf s⟩ : Stint)) := by
        cases h; rfl
      subst hp
      constructor
      · have hm : ((stints.map (fun s => (⟨s.compound, lapsNumOf s⟩ : Stint))).map
            (·.laps)) = stints.map lapsNumOf := by
          simp [List.map_map, Function.comp]
        rw [hm]
        exact (not_not.mp h1)
      · have hm : ((stints.map (fun s => (⟨s.compound, lapsNumOf s⟩ : Stint))).map
            (·.compound)) = stints.map (·.compound) := by
          simp [List.map_map, Function.comp]
        rw [hm]
        simp only [distinctCompounds] at h2
        omega

/-- C6 amended, witness: a concrete two-compound 57-lap plan is accepted
and satisfies the two checked invariants. -/
theorem accepted_plan_invariants_witness :
    (([(⟨"MEDIUM", 30⟩ : Stint), ⟨"HARD", 27⟩].map (·.laps)).sum = 57 ∧
      2 ≤ (([(⟨"MEDIUM", 30⟩ : Stint), ⟨"HARD", 27⟩].map (·.compound)).dedup).length) :=
  accepted_plan_invariants [⟨"MEDIUM", some 30⟩, ⟨"HARD", some 27⟩] 57
    [⟨"MEDIUM", 30⟩, ⟨"HARD", 27⟩] rfl

/-- C10: when the actual-strategy fetch fails, the client proceeds with
`actual = null` and the hard-coded default race length of 57 laps, and every
subsequent plan validation compares the planned lap sum against 57. -/
theorem fallback_race_length (deg : DegradationResponse) (pit : PitStats) :
    (buildRaceData deg pit none).actual = none
    ∧ (buildRaceData deg pit none).totalLaps = 57
    ∧ ∀ stints : List StintInput,
        (isAccepted (handleSimulate stints (buildRaceData deg pit none).totalLaps)
          = true ↔ (plannedTotal stints = 57 ∧ 2 ≤ distinctCompounds stints)) := by
  refine ⟨rfl, rfl, ?_⟩
  intro stints
  exact handleSimulate_accepted_iff stints 57

/-- C8: converting an ordered stint list (at least two stints, lap counts
summing to the race total) to its pit-lap boundary list and back yields
exactly the original stint list. -/
theorem stint_boundary_round_trip (stints : List Stint) (total : Nat)
    (h2 : 2 ≤ stints.length) (hsum : (stints.map (·.laps)).sum = total) :
    fromBoundaries total 0 (toBoundaries stints 0) = stints :=
  roundTrip_aux stints 0 total h2 (by omega)

/-- C8 witness: the round trip on the concrete two-stint 57-lap plan. -/
theorem stint_boundary_round_trip_witness :
    fromBoundaries 57 0 (toBoundaries [(⟨"MEDIUM", 28⟩ : Stint), ⟨"HARD", 29⟩] 0) =
      [(⟨"MEDIUM", 28⟩ : Stint), ⟨"HARD", 29⟩] :=
  stint_boundary_round_trip [⟨"MEDIUM", 28⟩, ⟨"HARD", 29⟩] 57 (by decide) (by decide)

/-- C4: a compound's fitted model is null exactly when its clean laps
occupy fewer than two distinct tyre-age buckets; on the concrete example
the single-bucket HARD compound gets a null model while the SOFT model,
the curves and the fuel effect are still computed, and the fitted SOFT
slope is the unclamped least-squares slope, here negative. -/
theorem degradation_model_insufficient_data :
    (∀ (laps : List LapRecord) (c : String),
        fitCompound laps c = none ↔ (bucketAges laps c).length < 2)
    ∧ fitCompound degExample "SOFT" = some ⟨101, -1⟩
    ∧ fitCompound degExample "HARD" = none
    ∧ ((-1 : ℚ) < 0)
    ∧ (computeDegradation degExample).models =
        [("SOFT", some ⟨101, -1⟩), ("HARD", none)]
    ∧ ((computeDegradation degExample).compounds.map Prod.fst) = ["SOFT", "HARD"]
    ∧ (computeDegradation degExample).fuel_effect.fuel_effect_per_lap = -5/2
    ∧ (computeDegradation degExample).total_laps = 3 := by
  have hiff : ∀ (laps : List LapRecord) (c : String),
      fitCompound laps c = none ↔ (bucketAges laps c).length < 2 := by
    intro laps c
    by_cases h : (bucketAges laps c).length < 2
    · simp [fitCompound, h]
    · simp [fitCompound, h]
  have hages : bucketAges degExample "SOFT" = [1, 2] := by decide
  have hagesH : bucketAges degExample "HARD" = [1] := by decide
  have hm1 : bucketMean degExample "SOFT" 1 = 100 := by
    have hbt : bucketTimes degExample "SOFT" 1 = [100] := by decide
    rw [bucketMean, hbt]
    norm_num
  have hm2 : bucketMean degExample "SOFT" 2 = 99 := by
    have hbt : bucketTimes degExample "SOFT" 2 = [99] := by decide
    rw [bucketMean, hbt]
    norm_num
  have hsoft : fitCompound degExample "SOFT" = some ⟨101, -1⟩ := by
    simp only [fitCompound, hages]
    norm_num [olsFit, hm1, hm2, DegradationModel.mk.injEq]
  have hhard : fitCompound degExample "HARD" = none := by
    simp only [fitCompound, hagesH]
    norm_num
  have hcomp : compoundsOf degExample = ["SOFT", "HARD"] := by decide
  refine ⟨hiff, hsoft, hhard, by norm_num, ?_, ?_, ?_, by decide⟩
  · show ((compoundsOf degExample).map (fun c => (c, fitCompound degExample c))) =
      [("SOFT", some ⟨101, -1⟩), ("HARD", none)]
    rw [hcomp]
    simp [hsoft, hhard]
  · show (((compoundsOf degExample).map (fun c => (c, curveOf degExample c))).map
      Prod.fst) = ["SOFT", "HARD"]
    rw [hcomp]
    simp
  · show (fuelEffectOf degExample (totalLapsOf degExample)).fuel_effect_per_lap = -5/2
    have hpts : (cleanLaps degExample).map
        (fun r => ((r.lap_number : ℚ), r.lap_time)) = [(1, 100), (2, 99), (3, 95)] := by
      decide
    simp only [fuelEffectOf, hpts]
    norm_num [olsFit]

theorem simulateLaps_single (m : Models) (p : ℚ) (s : Stint) (start : Nat) :
    simulateLaps m p [s] start = stintLapsList m p s.compound s.laps start false := rfl

theorem simulateLaps_cons₂ (m : Models) (p : ℚ) (s s' : Stint) (rest : List Stint)
    (start : Nat) :
    simulateLaps m p (s :: s' :: rest) start =
      stintLapsList m p s.compound s.laps start true ++
        simulateLaps m p (s' :: rest) (start + s.laps) := rfl

theorem length_stintLapsList (m : Models) (p : ℚ) (c : String) (n start : Nat)
    (b : Bool) : (stintLapsList m p c n start b).length = n := by
  simp [stintLapsList]

theorem length_simulateLaps (m : Models) (p : ℚ) :
    ∀ (plan : List Stint) (start : Nat),
      (simulateLaps m p plan start).length = (plan.map (·.laps)).sum := by
  intro plan
  induction plan with
  | nil => intro start; simp [simulateLaps]
  | cons s rest ih =>
    intro start
    cases rest with
    | nil => simp [simulateLaps, length_stintLapsList]
    | cons s' rest' =>
      rw [simulateLaps_cons₂, List.length_append, length_stintLapsList, ih]
      simp

theorem stintTime_succ (m : Models) (c : String) (n : Nat) :
    stintTime m c (n + 1) = stintTime m c n + predict m c (n + 1) := rfl

theorem sum_range_predict (m : Models) (c : String) :
    ∀ n : Nat, ((List.range n).map (fun i => predict m c (i + 1))).sum = stintTime m c n := by
  intro n
  induction n with
  | zero => simp [stintTime]
  | succ t ih =>
    rw [List.range_succ, List.map_append, List.sum_append, ih, stintTime_succ]
    simp

theorem timeMap_stintLaps_false (m : Models) (p : ℚ) (c : String) (n start : Nat) :
    (stintLapsList m p c n start false).map (·.time_sec) =
      (List.range n).map (fun i => predict m c (i + 1)) := by
  simp [stintLapsList, List.map_map, Function.comp]

theorem timeMap_stintLaps_true (m : Models) (p : ℚ) (c : String) (start t : Nat) :
    (stintLapsList m p c (t + 1) start true).map (·.time_sec) =
      ((List.range t).map (fun i => predict m c (i + 1))) ++ [predict m c (t + 1) + p] := by
  rw [stintLapsList, List.range_succ, List.map_append, List.map_append]
  congr 1
  · rw [List.map_map]
    apply List.map_congr_left
    intro i hi
    simp only [List.mem_range] at hi
    have hne : ¬ ((true && (i + 1 == t + 1)) = true) := by
      simp only [Bool.true_and, beq_iff_eq]
      omega
    simp only [Function.comp_apply, if_neg hne]
  · simp

theorem sum_time_stintLaps_false (m : Models) (p : ℚ) (c : String) (n start : Nat) :
    ((stintLapsList m p c n start false).map (·.time_sec)).sum = stintTime m c n := by
  rw [timeMap_stintLaps_false, sum_range_predict]

theorem sum_time_stintLaps_true (m : Models) (p : ℚ) (c : String) (start n : Nat)
    (hn : n ≠ 0) :
    ((stintLapsList m p c n start true).map (·.time_sec)).sum = stintTime m c n + p := by
  obtain ⟨t, rfl⟩ : ∃ t, n = t + 1 := ⟨n - 1, by omega⟩
  rw [timeMap_stintLaps_true, List.sum_append, sum_range_predict, stintTime_succ]
  simp only [List.sum_cons, List.sum_nil, add_zero]
  ring

theorem planTotal_single (m : Models) (p : ℚ) (cc : String) (n : Nat) :
    planTotal m p [⟨cc, n⟩] = stintTime m cc n := rfl

theorem planTotal_cons₂ (m : Models) (p : ℚ) (cc : String) (n : Nat) (s' : Stint)
    (rest : List Stint) :
    planTotal m p (⟨cc, n⟩ :: s' :: rest) =
      stintTime m cc n + (if n = 0 then 0 else p) + planTotal m p (s' :: rest) := rfl

theorem planTotal_cons (m : Models) (p : ℚ) (s : Stint) (l : List Stint) (hl : l ≠ []) :
    planTotal m p (s :: l) =
      stintTime m s.compound s.laps + (if s.laps = 0 then 0 else p) + planTotal m p l := by
  cases l with
  | nil => exact absurd rfl hl
  | cons x xs => rfl

theorem sum_simulateLaps (m : Models) (p : ℚ) :
    ∀ (plan : List Stint) (start : Nat),
      ((simulateLaps m p plan start).map (·.time_sec)).sum = planTotal m p plan := by
  intro plan
  induction plan with
  | nil => intro start; simp [simulateLaps, planTotal]
  | cons s rest ih =>
    intro start
    cases rest with
    | nil =>
      rw [simulateLaps_single, sum_time_stintLaps_false]
      cases s
      rw [planTotal_single]
    | cons s' rest' =>
      rw [simulateLaps_cons₂, List.map_append, List.sum_append, ih]
      by_cases h0 : s.laps = 0
      · cases s with
        | mk cc n =>
          simp only at h0
          subst h0
          rw [planTotal_cons₂, if_pos rfl]
          simp [stintLapsList, stintTime]
      · rw [sum_time_stintLaps_true m p s.compound start s.laps h0]
        cases s with
        | mk cc n =>
          simp only at h0
          rw [planTotal_cons₂, if_neg h0]

theorem planTotal_append (m : Models) (p : ℚ) :
    ∀ (pre mid : List Stint), mid ≠ [] →
      planTotal m p (pre ++ mid) =
        (pre.map (fun s => stintTime m s.compound s.laps +
          (if s.laps = 0 then 0 else p))).sum + planTotal m p mid := by
  intro pre
  induction pre with
  | nil => intro mid _; simp
  | cons x xs ih =>
    intro mid hm
    have hxm : xs ++ mid ≠ [] := by
      intro hc
      rcases List.append_eq_nil.mp hc with ⟨_, h2⟩
      exact hm h2
    rw [List.cons_append, planTotal_cons m p x (xs ++ mid) hxm, ih mid hm]
    simp
    ring

theorem user_total_eq_planTotal (m : Models) (pit : PitStats)
    (a : Option ActualStrategy) (plan : List Stint) :
    (simulate m pit a plan).user_total_time = planTotal m pit.avg_pit_time plan :=
  sum_simulateLaps m pit.avg_pit_time plan 0

theorem pit_filter_stintLaps_false (m : Models) (p : ℚ) (c : String) (n start : Nat) :
    (stintLapsList m p c n start false).filter (·.is_pit_lap) = [] := by
  apply List.filter_eq_nil_iff.mpr
  intro a ha
  simp only [stintLapsList, List.mem_map] at ha
  obtain ⟨i, _, rfl⟩ := ha
  simp

theorem pit_filter_stintLaps_true (m : Models) (p : ℚ) (c : String) (start t : Nat) :
    (stintLapsList m p c (t + 1) start true).filter (·.is_pit_lap) =
      [⟨start + t + 1, predict m c (t + 1) + p, c, t + 1, true⟩] := by
  rw [stintLapsList, List.range_succ, List.map_append, List.filter_append]
  have h1 : (((List.range t).map (fun i =>
      let base := predict m c (i + 1)
      let pitHere := true && (i + 1 == t + 1)
      (⟨start + i + 1, if pitHere then base + p else base, c, i + 1, pitHere⟩ :
        SimLap))).filter (·.is_pit_lap)) = [] := by
    apply List.filter_eq_nil_iff.mpr
    intro a ha
    simp only [List.mem_map] at ha
    obtain ⟨i, hi, rfl⟩ := ha
    have hne : (i + 1 == t + 1) = false := by
      rw [beq_eq_false_iff_ne]
      simp only [List.mem_range] at hi
      omega
    simp [hne]
  rw [h1]
  simp

theorem predictMap_stintLaps (m : Models) (p : ℚ) (c : String) (n start : Nat)
    (b : Bool) :
    (stintLapsList m p c n start b).map (fun l => predict m l.compound l.tyre_life) =
      (List.range n).map (fun i => predict m c (i + 1)) := by
  simp [stintLapsList, List.map_map, Function.comp]

theorem stintTime_closed (m : Models) (c : String) (b r : ℚ)
    (hb : (lookupModel m c).getD (fallbackModel m) = ⟨b, r⟩)
    (hpos : ∀ i : Nat, 0 ≤ b + r * ((i : ℚ) + 1)) :
    ∀ n : Nat, stintTime m c n = n * b + r * ((n * (n + 1) : ℚ)) / 2 := by
  intro n
  induction n with
  | zero => simp [stintTime]
  | succ t ih =>
    rw [stintTime_succ, ih, predict, hb]
    have hp := hpos t
    push_cast
    rw [max_eq_right (by linarith)]
    ring

theorem length_cumGapAux :
    ∀ (l : List ℚ) (n : Nat) (acc : ℚ), (cumGapAux n acc l).length = l.length := by
  intro l
  induction l with
  | nil => intro n acc; rfl
  | cons d ds ih => intro n acc; simp [cumGapAux, ih]

theorem length_cumulativeGap (sim act : List ℚ) :
    (cumulativeGap sim act).length = min sim.length act.length := by
  rw [cumulativeGap, length_cumGapAux, List.length_zipWith]

theorem cumGapAux_get :
    ∀ (l : List ℚ) (n : Nat) (acc : ℚ) (k : Nat) (h : k < (cumGapAux n acc l).length),
      (cumGapAux n acc l).get ⟨k, h⟩ = ⟨n + k + 1, acc + (l.take (k + 1)).sum⟩ := by
  intro l
  induction l with
  | nil => intro n acc k h; simp [cumGapAux] at h
  | cons d ds ih =>
    intro n acc k h
    cases k with
    | zero => simp [cumGapAux]
    | succ t =>
      have h' : t < (cumGapAux (n + 1) (acc + d) ds).length := by
        rw [length_cumGapAux]
        rw [cumGapAux, List.length_cons, length_cumGapAux] at h
        omega
      show (cumGapAux (n + 1) (acc + d) ds).get ⟨t, h'⟩ = _
      rw [ih (n + 1) (acc + d) t h']
      rw [List.take_succ_cons, List.sum_cons]
      congr 1
      · omega
      · ring

theorem take_zipWith_sub :
    ∀ (a b : List ℚ) (n : Nat),
      (List.zipWith (fun s t => s - t) a b).take n =
        List.zipWith (fun s t => s - t) (a.take n) (b.take n) := by
  intro a
  induction a with
  | nil => intro b n; simp
  | cons x xs ih =>
    intro b n
    cases b with
    | nil => simp
    | cons y ys =>
      cases n with
      | zero => simp
      | succ t => simp [ih ys t]

theorem sum_zipWith_sub :
    ∀ (a b : List ℚ), a.length = b.length →
      (List.zipWith (fun s t => s - t) a b).sum = a.sum - b.sum := by
  intro a
  induction a with
  | nil =>
    intro b h
    have : b = [] := List.eq_nil_of_length_eq_zero h.symm
    subst this
    simp
  | cons x xs ih =>
    intro b h
    cases b with
    | nil => simp at h
    | cons y ys =>
      simp only [List.zipWith_cons_cons, List.sum_cons]
      rw [ih ys (by simpa using h)]
      ring

/-- C1: on the concrete scenario (57 laps, plan MEDIUM 28 / HARD 29,
MEDIUM base 92 rate 0.04, HARD base 93 rate 0.02, 22 s average pit loss)
the simulation emits exactly 57 laps, marks lap 28 as the only pit lap,
and its total time is the sum of the per-lap predicted times plus one
22-second pit-loss addition, namely 5319.94 s. -/
theorem scenario_simulation :
    (simulate scenarioModels scenarioPit none scenarioPlan).simulated_laps.length = 57
    ∧ ((simulate scenarioModels scenarioPit none scenarioPlan).simulated_laps.filter
        (·.is_pit_lap)).map (·.lap) = [28]
    ∧ (simulate scenarioModels scenarioPit none scenarioPlan).user_total_time =
        ((simulate scenarioModels scenarioPit none scenarioPlan).simulated_laps.map
          (fun l => predict scenarioModels l.compound l.tyre_life)).sum +
          scenarioPit.avg_pit_time
    ∧ (simulate scenarioModels scenarioPit none scenarioPlan).user_total_time =
        265997/50 := by
  have hmed : (lookupModel scenarioModels "MEDIUM").getD (fallbackModel scenarioModels) =
      ⟨92, 1/25⟩ := rfl
  have hhard : (lookupModel scenarioModels "HARD").getD (fallbackModel scenarioModels) =
      ⟨93, 1/50⟩ := rfl
  have hposM : ∀ i : Nat, 0 ≤ (92:ℚ) + (1/25) * ((i:ℚ) + 1) := by
    intro i
    have : (0:ℚ) ≤ (i:ℚ) := Nat.cast_nonneg i
    nlinarith
  have hposH : ∀ i : Nat, 0 ≤ (93:ℚ) + (1/50) * ((i:ℚ) + 1) := by
    intro i
    have : (0:ℚ) ≤ (i:ℚ) := Nat.cast_nonneg i
    nlinarith
  have stM := stintTime_closed scenarioModels "MEDIUM" 92 (1/25) hmed hposM 28
  have stH := stintTime_closed scenarioModels "HARD" 93 (1/50) hhard hposH 29
  have hpv : scenarioPit.avg_pit_time = (22:ℚ) := rfl
  have h3 : (simulate scenarioModels scenarioPit none scenarioPlan).user_total_time =
      stintTime scenarioModels "MEDIUM" 28 + scenarioPit.avg_pit_time +
        stintTime scenarioModels "HARD" 29 := by
    rw [user_total_eq_planTotal]
    show planTotal scenarioModels scenarioPit.avg_pit_time
      [⟨"MEDIUM", 28⟩, ⟨"HARD", 29⟩] = _
    rw [planTotal_cons₂, planTotal_single, if_neg (by norm_num)]
  have h4 : ((simulate scenarioModels scenarioPit none scenarioPlan).simulated_laps.map
      (fun l => predict scenarioModels l.compound l.tyre_life)).sum =
        stintTime scenarioModels "MEDIUM" 28 + stintTime scenarioModels "HARD" 29 := by
    show ((simulateLaps scenarioModels scenarioPit.avg_pit_time
      [⟨"MEDIUM", 28⟩, ⟨"HARD", 29⟩] 0).map
        (fun l => predict scenarioModels l.compound l.tyre_life)).sum = _
    rw [simulateLaps_cons₂, simulateLaps_single, List.map_append, List.sum_append,
      predictMap_stintLaps, predictMap_stintLaps, sum_range_predict, sum_range_predict]
  refine ⟨?_, ?_, ?_, ?_⟩
  · show (simulateLaps scenarioModels scenarioPit.avg_pit_time scenarioPlan 0).length = 57
    rw [length_simulateLaps]
    rfl
  · show ((simulateLaps scenarioModels scenarioPit.avg_pit_time
      [⟨"MEDIUM", 28⟩, ⟨"HARD", 29⟩] 0).filter (·.is_pit_lap)).map (·.lap) = [28]
    rw [simulateLaps_cons₂, List.filter_append]
    have ha : (stintLapsList scenarioModels scenarioPit.avg_pit_time "MEDIUM" 28 0
        true).filter (·.is_pit_lap) =
        [⟨28, predict scenarioModels "MEDIUM" 28 + scenarioPit.avg_pit_time,
          "MEDIUM", 28, true⟩] :=
      pit_filter_stintLaps_true scenarioModels scenarioPit.avg_pit_time "MEDIUM" 0 27
    have hb : (simulateLaps scenarioModels scenarioPit.avg_pit_time
        [⟨"HARD", 29⟩] (0 + 28)).filter (·.is_pit_lap) = [] := by
      rw [simulateLaps_single]
      exact pit_filter_stintLaps_false scenarioModels scenarioPit.avg_pit_time
        "HARD" 29 (0 + 28)
    rw [ha, hb]
    rfl
  · rw [h3, h4]
    ring
  · rw [h3, stM, stH, hpv]
    push_cast
    norm_num

/-- C3 counterexample: two `simulate` calls with identical models, pit
stats and stint plan but different `actual` inputs return different
cumulative-gap outputs, so identity of (models, pit stats, plan) alone
does not determine the output. -/
theorem simulate_gap_depends_on_actual :
    ¬ ((simulate scenarioModels scenarioPit none scenarioPlan).cumulative_gap =
        (simulate scenarioModels scenarioPit (some divergingActual)
          scenarioPlan).cumulative_gap) := by
  intro h
  have h0 : (simulate scenarioModels scenarioPit none scenarioPlan).cumulative_gap =
      [] := rfl
  have h1 : ((simulate scenarioModels scenarioPit (some divergingActual)
      scenarioPlan).cumulative_gap).length = 1 := by
    show (cumulativeGap
        ((simulateLaps scenarioModels scenarioPit.avg_pit_time scenarioPlan 0).map
          (·.time_sec))
        (divergingActual.lap_times.map (·.time_sec))).length = 1
    rw [length_cumulativeGap, List.length_map, List.length_map, length_simulateLaps]
    rfl
  rw [h0] at h
  rw [← h] at h1
  simp at h1

/-- C3 amended: `simulate` is a pure deterministic function of all four of
its inputs — identical models, pit stats, actual strategy and stint plan
always produce identical output. -/
theorem simulate_deterministic (m m' : Models) (p p' : PitStats)
    (a a' : Option ActualStrategy) (s s' : List Stint)
    (hm : m = m') (hp : p = p') (ha : a = a') (hs : s = s') :
    simulate m p a s = simulate m' p' a' s' := by
  subst hm
  subst hp
  subst ha
  subst hs
  rfl

/-- C3 amended, witness: determinism at the concrete scenario inputs. -/
theorem simulate_deterministic_witness :
    simulate scenarioModels scenarioPit none scenarioPlan =
      simulate scenarioModels scenarioPit none scenarioPlan :=
  simulate_deterministic scenarioModels scenarioModels scenarioPit scenarioPit
    none none scenarioPlan scenarioPlan rfl rfl rfl rfl

/-- C5: for a driver id absent from the lap records the actual-strategy
extraction fails with the UnknownDriverError, while simulation with
`actual = null` still proceeds (emitting the full lap list) and the
comparison fields that depend on the actual strategy are omitted: the
cumulative gap and stint analysis are empty and the total-time difference
is not available. -/
theorem unknown_driver_isolated (lapsR : List LapRecord) (d : String) (m : Models)
    (pit : PitStats) (plan : List Stint) (u : ℚ)
    (hd : ∀ r ∈ lapsR, r.driver ≠ d) :
    extract_actual_strategy lapsR d = Except.error "UnknownDriverError"
    ∧ (simulate m pit none plan).simulated_laps.length = (plan.map (·.laps)).sum
    ∧ (simulate m pit none plan).cumulative_gap = []
    ∧ (simulate m pit none plan).stint_analysis = []
    ∧ totalTimeDiff u none = 0
    ∧ comparisonAvailable none = false := by
  refine ⟨?_, ?_, rfl, rfl, ?_, ?_⟩
  · have hf : lapsR.filter (fun r => r.driver == d) = [] := by
      apply List.filter_eq_nil_iff.mpr
      intro r hr
      simp only [beq_iff_eq]
      exact hd r hr
    simp only [extract_actual_strategy, hf]
  · exact length_simulateLaps m pit.avg_pit_time plan 0
  · simp [totalTimeDiff, actualTotalOf]
  · simp [comparisonAvailable, actualTotalOf]

/-- C5 witness: the concrete one-record lap list of driver VER with the
unknown driver id HAM. -/
theorem unknown_driver_isolated_witness :
    extract_actual_strategy soloLap "HAM" = Except.error "UnknownDriverError"
    ∧ (simulate scenarioModels scenarioPit none scenarioPlan).simulated_laps.length =
        (scenarioPlan.map (·.laps)).sum
    ∧ (simulate scenarioModels scenarioPit none scenarioPlan).cumulative_gap = []
    ∧ (simulate scenarioModels scenarioPit none scenarioPlan).stint_analysis = []
    ∧ totalTimeDiff 100 none = 0
    ∧ comparisonAvailable none = false :=
  unknown_driver_isolated soloLap "HAM" scenarioModels scenarioPit scenarioPlan 100
    (by decide)

/-- C7: splitting one stint of a plan by inserting an additional pit stop
increases the simulated total time by at least `pit_stats.avg_pit_time`
minus the degradation time saved by resetting tyre age on that stint (in
this model the increase equals it exactly). -/
theorem pit_insertion_monotone (m : Models) (pit : PitStats)
    (a : Option ActualStrategy) (pre post : List Stint) (c : String) (L k : Nat)
    (hk : 1 ≤ k) (hkL : k < L) :
    (simulate m pit a (pre ++ ⟨c, L⟩ :: post)).user_total_time + pit.avg_pit_time -
        degSaved m c L k
      ≤ (simulate m pit a (pre ++ ⟨c, k⟩ :: ⟨c, L - k⟩ :: post)).user_total_time := by
  rw [user_total_eq_planTotal, user_total_eq_planTotal]
  rw [planTotal_append m pit.avg_pit_time pre (⟨c, L⟩ :: post) (by simp),
    planTotal_append m pit.avg_pit_time pre (⟨c, k⟩ :: ⟨c, L - k⟩ :: post) (by simp)]
  simp only [degSaved]
  cases post with
  | nil =>
    have hold : planTotal m pit.avg_pit_time [(⟨c, L⟩ : Stint)] =
        stintTime m c L := planTotal_single m pit.avg_pit_time c L
    have hnew : planTotal m pit.avg_pit_time [(⟨c, k⟩ : Stint), ⟨c, L - k⟩] =
        stintTime m c k + pit.avg_pit_time + stintTime m c (L - k) := by
      rw [planTotal_cons₂, planTotal_single, if_neg (by omega)]
    rw [hold, hnew]
    linarith
  | cons q qs =>
    have hold : planTotal m pit.avg_pit_time ((⟨c, L⟩ : Stint) :: q :: qs) =
        stintTime m c L + pit.avg_pit_time + planTotal m pit.avg_pit_time (q :: qs) := by
      rw [planTotal_cons₂, if_neg (by omega)]
    have hnew : planTotal m pit.avg_pit_time
        ((⟨c, k⟩ : Stint) :: ⟨c, L - k⟩ :: q :: qs) =
        stintTime m c k + pit.avg_pit_time +
          (stintTime m c (L - k) + pit.avg_pit_time +
            planTotal m pit.avg_pit_time (q :: qs)) := by
      rw [planTotal_cons₂, planTotal_cons₂, if_neg (by omega), if_neg (by omega)]
    rw [hold, hnew]
    linarith

/-- C7 witness: splitting the 10-lap MEDIUM stint of a MEDIUM 10 / HARD 47
plan at lap 4. -/
theorem pit_insertion_monotone_witness :
    (simulate scenarioModels scenarioPit none
        ([] ++ ⟨"MEDIUM", 10⟩ :: [⟨"HARD", 47⟩])).user_total_time +
        scenarioPit.avg_pit_time - degSaved scenarioModels "MEDIUM" 10 4
      ≤ (simulate scenarioModels scenarioPit none
          ([] ++ ⟨"MEDIUM", 4⟩ :: ⟨"MEDIUM", 10 - 4⟩ :: [⟨"HARD", 47⟩])).user_total_time :=
  pit_insertion_monotone scenarioModels scenarioPit none [] [⟨"HARD", 47⟩]
    "MEDIUM" 10 4 (by norm_num) (by norm_num)

/-- C9: the comparison engine truncates at the shorter of the simulated
and actual lap-time series, the emitted cumulative-gap field of `simulate`
is exactly this comparison, and the point at aligned lap `k+1` carries the
sum over laps 1..k+1 of (simulated minus actual). -/
theorem cumulative_gap_spec (sim act : List ℚ) :
    (cumulativeGap sim act).length = min sim.length act.length
    ∧ (∀ (m : Models) (p : PitStats) (a : ActualStrategy) (plan : List Stint),
        (simulate m p (some a) plan).cumulative_gap =
          cumulativeGap ((simulateLaps m p.avg_pit_time plan 0).map (·.time_sec))
            (a.lap_times.map (·.time_sec)))
    ∧ ∀ (k : Nat) (h : k < (cumulativeGap sim act).length),
        (cumulativeGap sim act).get ⟨k, h⟩ =
          ⟨k + 1, (sim.take (k + 1)).sum - (act.take (k + 1)).sum⟩ := by
  refine ⟨length_cumulativeGap sim act, fun m p a plan => rfl, ?_⟩
  intro k h
  have hk : k + 1 ≤ sim.length ∧ k + 1 ≤ act.length := by
    have hh := h
    rw [length_cumulativeGap] at hh
    omega
  have hz : k < (cumGapAux 0 0 (List.zipWith (fun s t => s - t) sim act)).length := h
  have hget : (cumulativeGap sim act).get ⟨k, h⟩ =
      ⟨0 + k + 1, 0 + ((List.zipWith (fun s t => s - t) sim act).take (k + 1)).sum⟩ :=
    cumGapAux_get (List.zipWith (fun s t => s - t) sim act) 0 0 k hz
  rw [hget, take_zipWith_sub,
    sum_zipWith_sub _ _ (by rw [List.length_take, List.length_take]; omega)]
  congr 1
  · omega
  · ring

/-- C9 witness: the cumulative gap of the series [3, 5] against [1, 1, 7]
at aligned lap 2. -/
theorem cumulative_gap_spec_witness :
    (cumulativeGap [(3:ℚ), 5] [(1:ℚ), 1, 7]).get
        ⟨1, by rw [length_cumulativeGap]; norm_num⟩ =
      ⟨1 + 1, (([(3:ℚ), 5]).take (1 + 1)).sum - (([(1:ℚ), 1, 7]).take (1 + 1)).sum⟩ :=
  (cumulative_gap_spec [3, 5] [1, 1, 7]).2.2 1 (by rw [length_cumulativeGap]; norm_num)

end F1Strategy
